import Mathlib

/-!
Shallow embedding of the Jira OAuth2 client (`src/JiraOAuth2Client.ts`) and proofs
about its validators, pagination loops, error normalization and session-token
handling.

Conventions used throughout:
* JavaScript optional fields become `Option` values; JS truthiness of a string
  field (`undefined` and `""` are falsy) is `optStrFalsy`, and of a numeric
  option (`undefined` and `0` are falsy) is `natFalsy`.
* The remote search endpoint is modelled by `serve`: a server holding the issue
  list `L` answers a request for `maxResults` items starting at offset
  `startAt` with `(L.drop startAt).take maxResults`.  A request that omits
  `startAt` is served from the server default offset `0`, which coincides with
  passing `0` (the code omits falsy query parameters).
* `while` loops become fuel-indexed recursive functions returning `Option`;
  `none` means the fuel ran out, i.e. the loop did not terminate within the
  given number of iterations.
-/

namespace JiraClient

/-- Truthiness of a JS string-or-undefined value: `undefined` and `""` are falsy. -/
def optStrFalsy : Option String → Bool
  | none => true
  | some s => s == ""

/-- Truthiness of a JS number-or-undefined value: `undefined` and `0` are falsy. -/
def natFalsy : Option Nat → Bool
  | none => true
  | some n => n == 0

@[simp]
theorem optStrFalsy_some_empty : optStrFalsy (some "") = true := rfl

/-- JS `x || y` for a possibly-undefined string `x` with fallback `y`. -/
def jsOrStr (x : Option String) (y : String) : String :=
  match x with
  | some s => if s == "" then y else s
  | none => y

-- ======== Validators: createIssue (JiraOAuth2Client.ts lines 135-146) ========

/-- Flattened view of the `fields` object of a creation payload.  The optional
chains of the source (`fields.project?.key`, `fields.issuetype?.name`,
`fields.issuetype?.id`, `fields.summary`) each yield either `undefined` or a
string, so a payload whose `project` or `issuetype` object is absent is the
payload whose corresponding components are all `none`. -/
structure CreateIssueFields where
  projectKey : Option String
  issuetypeName : Option String
  issuetypeId : Option String
  summary : Option String
deriving DecidableEq, Repr

/-- Request dispatched by `makeRequest` once validation passes. -/
structure DispatchedRequest where
  method : String
  endpoint : String
deriving DecidableEq, Repr

/-- Embedding of `createIssue`: the three `if (!...) throw` checks, in source
order, then the dispatch of `POST /issue`.  An `Except.error` is the thrown
`Error` message; the dispatch happens only in the `Except.ok` case, so a
validation failure is synchronous and dispatches nothing. -/
def createIssue (issueData : CreateIssueFields) : Except String DispatchedRequest :=
  if optStrFalsy issueData.projectKey then
    Except.error "Missing required field: project.key"
  else if optStrFalsy issueData.issuetypeName && optStrFalsy issueData.issuetypeId then
    Except.error "Missing required field: issuetype (name or id)"
  else if optStrFalsy issueData.summary then
    Except.error "Missing required field: summary"
  else
    Except.ok { method := "POST", endpoint := "/issue" }

-- ======== getIssue query construction (JiraOAuth2Client.ts lines 152-159) ========

/-- Options object of `getIssue`. -/
structure GetIssueOptions where
  expand : Option (List String) := none
  fields : Option (List String) := none
deriving Repr

/-- Request with query parameters, as handed to the transport. -/
structure HttpRequest where
  method : String
  url : String
  params : List (String × String)
deriving DecidableEq, Repr

/-- Embedding of `getIssue`: builds the `params` object.  `if (expand)` and
`if (fields)` test JS truthiness of the array option, and an array is truthy
even when empty, so a present list is always joined with `","` and set. -/
def getIssue (issueKey : String) (options : GetIssueOptions) : HttpRequest :=
  let params : List (String × String) := []
  let params := match options.expand with
    | some e => params ++ [("expand", String.intercalate "," e)]
    | none => params
  let params := match options.fields with
    | some f => params ++ [("fields", String.intercalate "," f)]
    | none => params
  { method := "GET", url := "/issue/" ++ issueKey, params := params }

-- ======== Theorems: claims C3, C10, C8 ========

/-- Claim C3: `createIssue` checks the required fields in the fixed order
project identifier, then issue-type (name or id), then summary; on the first
missing (JS-falsy) field it fails synchronously - before any dispatch - with
the message "Missing required field: <field>" naming that first missing field
(the message names `project.key` whenever the project identifier is missing,
regardless of the other fields), later checks are not evaluated, and only a
payload passing all three checks dispatches a request. -/
theorem createIssue_validation_order (d : CreateIssueFields) :
    (optStrFalsy d.projectKey = true →
      createIssue d = Except.error "Missing required field: project.key")
  ∧ (optStrFalsy d.projectKey = false → optStrFalsy d.issuetypeName = true →
      optStrFalsy d.issuetypeId = true →
      createIssue d = Except.error "Missing required field: issuetype (name or id)")
  ∧ (optStrFalsy d.projectKey = false →
      (optStrFalsy d.issuetypeName = false ∨ optStrFalsy d.issuetypeId = false) →
      optStrFalsy d.summary = true →
      createIssue d = Except.error "Missing required field: summary")
  ∧ (optStrFalsy d.projectKey = false →
      (optStrFalsy d.issuetypeName = false ∨ optStrFalsy d.issuetypeId = false) →
      optStrFalsy d.summary = false →
      createIssue d = Except.ok { method := "POST", endpoint := "/issue" }) := by
  refine ⟨?_, ?_, ?_, ?_⟩
  · intro h1
    simp [createIssue, h1]
  · intro h1 h2 h3
    simp [createIssue, h1, h2, h3]
  · intro h1 h2 h3
    rcases h2 with h2 | h2 <;> simp [createIssue, h1, h2, h3]
  · intro h1 h2 h3
    rcases h2 with h2 | h2 <;> simp [createIssue, h1, h2, h3]

/-- Witness for C3: with the project identifier absent and every other required
field present, the error names `project.key`. -/
theorem createIssue_validation_order_witness :
    createIssue { projectKey := none, issuetypeName := some "Task",
                  issuetypeId := none, summary := some "do it" } =
      Except.error "Missing required field: project.key" :=
  (createIssue_validation_order _).1 rfl

/-- Claim C10: `createIssue` rejects empty-string required fields exactly like
absent ones: an empty project key fails with the `project.key` message, empty
issue-type name and id fail with the issue-type message, and an empty summary
fails with the summary message - in each case synchronously, with no request
dispatched (the result is an `Except.error`, which carries no request). -/
theorem createIssue_rejects_empty_strings (d : CreateIssueFields) :
    (d.projectKey = some "" →
      createIssue d = Except.error "Missing required field: project.key")
  ∧ (optStrFalsy d.projectKey = false → d.issuetypeName = some "" →
      d.issuetypeId = some "" →
      createIssue d = Except.error "Missing required field: issuetype (name or id)")
  ∧ (optStrFalsy d.projectKey = false →
      (optStrFalsy d.issuetypeName = false ∨ optStrFalsy d.issuetypeId = false) →
      d.summary = some "" →
      createIssue d = Except.error "Missing required field: summary") := by
  refine ⟨?_, ?_, ?_⟩
  · intro h1
    simp [createIssue, h1]
  · intro h1 h2 h3
    simp [createIssue, h1, h2, h3]
  · intro h1 h2 h3
    rcases h2 with h2 | h2 <;> simp [createIssue, h1, h2, h3]

/-- Witness for C10: an empty-string project key is rejected with the
`project.key` message. -/
theorem createIssue_rejects_empty_strings_witness :
    createIssue { projectKey := some "", issuetypeName := some "Task",
                  issuetypeId := none, summary := some "do it" } =
      Except.error "Missing required field: project.key" :=
  (createIssue_rejects_empty_strings _).1 rfl

/-- Claim C8: for every issue key and non-empty lists `[a, b]` of fields and
`[c]` of expands, `getIssue` dispatches a request whose query parameters are
the comma-joined single values `fields = a ++ "," ++ b` and `expand = c` -
one key-value pair per parameter, not repeated keys or array encodings. -/
theorem getIssue_params_comma_joined (key a b c : String) :
    (getIssue key { expand := some [c], fields := some [a, b] }).params =
      [("expand", c), ("fields", a ++ "," ++ b)] := by
  simp [getIssue, String.intercalate, String.intercalate.go]

-- ======== Pagination (JiraOAuth2Client.ts lines 182-217 and 281-344) ========

/-- Server model for the search endpoint: a server holding the matching issues
`L` serves a page of the requested size from the requested offset,
`(L.drop startAt).take maxResults`.  `searchIssues` omits falsy query
parameters (`if (startAt) params.startAt = startAt`), and an omitted offset is
served from the server default `0`, which is the same as passing `0`. -/
def serve {α : Type} (L : List α) (startAt maxResults : Nat) : List α :=
  (L.drop startAt).take maxResults

/-- Loop body of `getEpics`, fuel-indexed.  The accumulator, request counter
and the local `startAt` variable are threaded through; the source calls
`searchIssues(jql, { maxResults: MAX_RESULTS })` with no `startAt`, so every
dispatched request is served from offset `0` even though the local `startAt`
is incremented after each non-final page. -/
def getEpicsLoop {α : Type} (L : List α) (fuel : Nat) (allEpics : List α)
    (requests startAt : Nat) : Option (List α × Nat) :=
  match fuel with
  | 0 => none
  | fuel + 1 =>
    let result := serve L 0 1000
    let allEpics2 := if 0 < result.length then allEpics ++ result else allEpics
    if result.length < 1000 then some (allEpics2, requests + 1)
    else getEpicsLoop L fuel allEpics2 (requests + 1) (startAt + 1000)

/-- Embedding of `getEpics` run against a server holding issue list `L`:
returns the accumulated epics and the number of requests dispatched, or
`none` when the loop does not terminate within `fuel` iterations. -/
def getEpics {α : Type} (L : List α) (fuel : Nat) : Option (List α × Nat) :=
  getEpicsLoop L fuel [] 0 0

/-- Options object of `getIssuesForProject` (fields irrelevant to pagination
are omitted from the claims but kept for shape). -/
structure GetIssuesOptions where
  startAt : Option Nat := none
  maxResults : Option Nat := none
  fields : Option (List String) := none
  jql : Option String := none
deriving Repr

/-- Loop body of `getIssuesForProject`, fuel-indexed.  `remainingResults` is
`none` for the JS `Infinity` of the fetch-all mode and `some r` (an `Int`,
mirroring JS subtraction) in the capped mode.  Each iteration re-checks the
`while` guard `!isLast && remainingResults > 0`; `isLast` is encoded by
returning instead of recursing. -/
def getIssuesForProjectLoop {α : Type} (L : List α) (shouldFetchAll : Bool)
    (maxResultsConst : Nat) (fuel : Nat) (allIssues : List α) (startAt : Nat)
    (remainingResults : Option Int) : Option (List α) :=
  match fuel with
  | 0 => none
  | fuel + 1 =>
    let remPos : Bool := match remainingResults with
      | none => true
      | some r => decide (0 < r)
    if remPos = false then some allIssues
    else
      let currentMaxResults := if shouldFetchAll then maxResultsConst
        else min maxResultsConst (remainingResults.getD 0).toNat
      let result := serve L startAt currentMaxResults
      let allIssues2 := if 0 < result.length then allIssues ++ result else allIssues
      if shouldFetchAll then
        if result.length < currentMaxResults then some allIssues2
        else getIssuesForProjectLoop L shouldFetchAll maxResultsConst fuel allIssues2
          (startAt + currentMaxResults) remainingResults
      else
        let remaining2 := remainingResults.getD 0 - (result.length : Int)
        if result.length < currentMaxResults ∨ remaining2 ≤ 0 then some allIssues2
        else getIssuesForProjectLoop L shouldFetchAll maxResultsConst fuel allIssues2
          (startAt + currentMaxResults) (some remaining2)

/-- Embedding of `getIssuesForProject` run against a server holding issue list
`L`: `MAX_RESULTS = userMaxResults || 1000`, `shouldFetchAll = !userMaxResults`
and `remainingResults = userMaxResults || Infinity`, where `0` and `undefined`
are both falsy. -/
def getIssuesForProject {α : Type} (L : List α) (options : GetIssuesOptions)
    (fuel : Nat) : Option (List α) :=
  let initialStartAt := options.startAt.getD 0
  let userFalsy := natFalsy options.maxResults
  let maxResultsConst := if userFalsy then 1000 else options.maxResults.getD 0
  let shouldFetchAll := userFalsy
  let remainingResults : Option Int :=
    if userFalsy then none else some ((options.maxResults.getD 0 : Nat) : Int)
  getIssuesForProjectLoop L shouldFetchAll maxResultsConst fuel [] initialStartAt
    remainingResults

theorem append_if_nonempty {α : Type} (acc page : List α) :
    (if 0 < page.length then acc ++ page else acc) = acc ++ page := by
  by_cases h : 0 < page.length
  · simp [h]
  · have hp : page = [] := by
      simpa [List.length_eq_zero] using Nat.eq_zero_of_not_pos h
    simp [h, hp]

theorem getEpicsLoop_full_page_none {α : Type} (L : List α)
    (hL : 1000 ≤ L.length) :
    ∀ (fuel : Nat) (acc : List α) (requests startAt : Nat),
      getEpicsLoop L fuel acc requests startAt = none := by
  intro fuel
  induction fuel with
  | zero => intro acc requests startAt; rfl
  | succ fuel ih =>
    intro acc requests startAt
    have hlen : (serve L 0 1000).length = 1000 := by
      simp [serve]
      omega
    unfold getEpicsLoop
    simp only [hlen]
    simp [ih]

/-- Claim C1 (code bug): against a server holding exactly 1000 matching issues
and serving pages of the requested size from the requested offset, `getEpics`
never terminates - for every amount of fuel the loop is still running - because
the incremented local `startAt` is never passed to `searchIssues`, so every
request is served from offset `0` and every page has the full 1000 items.  The
claim instead requires termination after 2 requests with all 1000 issues
accumulated. -/
theorem getEpics_diverges_on_full_page :
    ∀ fuel : Nat, getEpics (List.range 1000) fuel = none := by
  intro fuel
  exact getEpicsLoop_full_page_none (List.range 1000) (by simp) fuel [] 0 0

theorem getIssuesForProjectLoop_fetchAll_step {α : Type} (L : List α)
    (P fuel : Nat) (acc : List α) (startAt : Nat) :
    getIssuesForProjectLoop L true P (fuel + 1) acc startAt none =
      (if (serve L startAt P).length < P then some (acc ++ serve L startAt P)
       else getIssuesForProjectLoop L true P fuel (acc ++ serve L startAt P)
         (startAt + P) none) := by
  conv_lhs => unfold getIssuesForProjectLoop
  simp only [append_if_nonempty]
  simp

theorem getIssuesForProjectLoop_fetchAll {α : Type} (L : List α) (P : Nat)
    (hP : 0 < P) :
    ∀ (fuel startAt : Nat) (acc : List α),
      L.length - startAt + 1 ≤ fuel →
      getIssuesForProjectLoop L true P fuel acc startAt none =
        some (acc ++ L.drop startAt) := by
  intro fuel
  induction fuel with
  | zero => intro startAt acc h; omega
  | succ fuel ih =>
    intro startAt acc h
    rw [getIssuesForProjectLoop_fetchAll_step]
    have hserve : (serve L startAt P).length = min P (L.length - startAt) := by
      simp [serve]
    by_cases hshort : (serve L startAt P).length < P
    · have hfull : serve L startAt P = L.drop startAt := by
        apply List.take_of_length_le
        simp
        omega
      rw [if_pos hshort, hfull]
    · rw [if_neg hshort]
      have hge : P ≤ L.length - startAt := by omega
      rw [ih (startAt + P) (acc ++ serve L startAt P) (by omega)]
      have hsplit : serve L startAt P ++ L.drop (startAt + P) = L.drop startAt := by
        have hdd : (L.drop startAt).drop P = L.drop (startAt + P) :=
          List.drop_drop P startAt L
        calc serve L startAt P ++ L.drop (startAt + P)
            = (L.drop startAt).take P ++ (L.drop startAt).drop P := by
              rw [hdd]; rfl
          _ = L.drop startAt := List.take_append_drop P (L.drop startAt)
      rw [List.append_assoc, hsplit]

/-- Claim C9: a zero `maxResults` cap is JS-falsy, so
`getIssuesForProject` with `maxResults = 0` behaves exactly like the call with
no cap at all: it enters the unbounded fetch-all mode with the default page
size 1000 and returns every matching issue, not an empty result. -/
theorem getIssuesForProject_zero_cap_fetches_all {α : Type} (L : List α)
    (fuel : Nat) (hfuel : L.length + 1 ≤ fuel) :
    getIssuesForProject L { maxResults := some 0 } fuel =
      getIssuesForProject L { maxResults := none } fuel
  ∧ getIssuesForProject L { maxResults := some 0 } fuel = some L := by
  constructor
  · rfl
  · show getIssuesForProjectLoop L true 1000 fuel [] 0 none = some L
    have h := getIssuesForProjectLoop_fetchAll L 1000 (by omega) fuel 0 []
      (by omega)
    simpa using h

/-- Witness for C9: a three-issue server, fuel 4. -/
theorem getIssuesForProject_zero_cap_fetches_all_witness :
    getIssuesForProject [10, 20, 30] { maxResults := some 0 } 4 =
      getIssuesForProject ([10, 20, 30] : List Nat) { maxResults := none } 4
  ∧ getIssuesForProject [10, 20, 30] { maxResults := some 0 } 4 =
      some [10, 20, 30] :=
  getIssuesForProject_zero_cap_fetches_all [10, 20, 30] 4 (by decide)

/-- Claim C2: `getIssuesForProject` with a positive caller-supplied cap `C`
against a server holding `M = L.length` matching issues returns exactly
`min C M` issues: `C` of them when `C ≤ M`, all `M` when `C > M` (the
server-exhausted stop fires before the cap). -/
theorem getIssuesForProjectLoop_capped_one {α : Type} (L : List α) (C f : Nat)
    (hC : 0 < C) :
    getIssuesForProjectLoop L false C (f + 1) [] 0 (some ((C : Nat) : Int)) =
      some (L.take C) := by
  conv_lhs => unfold getIssuesForProjectLoop
  simp only [append_if_nonempty]
  have hpos : decide (0 < ((C : Nat) : Int)) = true := by
    simp
    omega
  have hserve : serve L 0 C = L.take C := by simp [serve]
  have hstop : (L.take C).length < C ∨ ((C : Int) - ((L.take C).length : Int) ≤ 0) := by
    have : (L.take C).length = min C L.length := by simp
    omega
  simp [hpos, hserve, hstop]
  rw [if_neg (by omega : ¬ C = 0),
    if_pos (show L.length < C ∨ C ≤ L.length by omega)]

theorem getIssuesForProject_capped_length {α : Type} (L : List α)
    (C fuel : Nat) (hC : 0 < C) (hfuel : 0 < fuel) :
    ∃ r : List α,
      getIssuesForProject L { maxResults := some C } fuel = some r ∧
      r.length = min C L.length := by
  obtain ⟨f, rfl⟩ : ∃ f, fuel = f + 1 := ⟨fuel - 1, by omega⟩
  have hfalsy : natFalsy (some C) = false := by
    simp [natFalsy]
    omega
  refine ⟨L.take C, ?_, by simp⟩
  have hrw : getIssuesForProject L { maxResults := some C } (f + 1) =
      getIssuesForProjectLoop L false C (f + 1) [] 0 (some ((C : Nat) : Int)) := by
    simp [getIssuesForProject, hfalsy]
  rw [hrw, getIssuesForProjectLoop_capped_one L C f hC]

/-- Witness for C2: cap 2 against a server holding 5 issues yields 2 issues. -/
theorem getIssuesForProject_capped_length_witness :
    ∃ r : List Nat,
      getIssuesForProject [1, 2, 3, 4, 5] { maxResults := some 2 } 3 = some r ∧
      r.length = min 2 [1, 2, 3, 4, 5].length :=
  getIssuesForProject_capped_length [1, 2, 3, 4, 5] 2 3 (by decide) (by decide)

-- ======== Error normalization: makeRequest (JiraOAuth2Client.ts lines 102-127) ========

/-- Body of a Jira error response, as inspected by `makeRequest`:
`data.errorMessages` (an optional list) and `data.message` (an optional
string). -/
structure JiraErrorData where
  errorMessages : Option (List String)
  message : Option String
deriving DecidableEq, Repr

/-- The `response` object attached to an Axios transport error: `status` and
`statusText` are always present on a response, `data` may be absent. -/
structure TransportResponse where
  status : Nat
  statusText : String
  data : Option JiraErrorData
deriving DecidableEq, Repr

/-- Transport-level error: `response` is absent for network-level failures;
`message` is the JS `Error` message string. -/
structure TransportError where
  response : Option TransportResponse
  message : String
deriving DecidableEq, Repr

/-- The `JiraApiError` constructed by `makeRequest` (field names from
`types.ts`; the spec calls `responseData` the raw body and `originalError`
the cause). -/
structure JiraApiError where
  message : String
  status : Option Nat
  statusText : Option String
  responseData : Option JiraErrorData
  originalError : TransportError
deriving DecidableEq, Repr

/-- Value of `error.response?.data?.errorMessages?.join(', ')`. -/
def errorMessagesJoined (e : TransportError) : Option String :=
  ((e.response.bind TransportResponse.data).bind JiraErrorData.errorMessages).map
    (String.intercalate ", ")

/-- Value of `error.response?.data?.message`. -/
def dataMessage (e : TransportError) : Option String :=
  (e.response.bind TransportResponse.data).bind JiraErrorData.message

/-- The `errorMessage` chain of `makeRequest`: each `||` falls through on a
JS-falsy (absent or empty) value. -/
def normalizedMessage (e : TransportError) : String :=
  jsOrStr (errorMessagesJoined e)
    (jsOrStr (dataMessage e)
      (jsOrStr (some e.message) "An unknown Jira API error occurred"))

/-- The `new JiraApiError(...)` constructed in the catch block. -/
def normalizeError (e : TransportError) : JiraApiError :=
  { message := normalizedMessage e
    status := e.response.map TransportResponse.status
    statusText := e.response.map TransportResponse.statusText
    responseData := e.response.bind TransportResponse.data
    originalError := e }

/-- Embedding of `makeRequest`: a successful transport outcome returns the
response data; a failed one throws exactly the one normalized error. -/
def makeRequest {α : Type} (outcome : Except TransportError α) :
    Except JiraApiError α :=
  match outcome with
  | Except.ok v => Except.ok v
  | Except.error e => Except.error (normalizeError e)

/-- Claim C4: every failed dispatch throws exactly one `JiraApiError` whose
message is the first JS-truthy value among the comma-joined server
`errorMessages`, the server `message` field, the transport error message and
the generic fallback; whose `status`/`statusText` are copied from the
transport error response when present and absent otherwise (so a 404 response
surfaces `status = some 404`); whose raw body is the response payload when
present; and whose cause is the original transport error. -/
theorem makeRequest_error_normalization (α : Type) (e : TransportError) :
    makeRequest (Except.error e : Except TransportError α) =
      Except.error (normalizeError e)
  ∧ (normalizeError e).status = e.response.map TransportResponse.status
  ∧ (normalizeError e).statusText = e.response.map TransportResponse.statusText
  ∧ (normalizeError e).responseData = e.response.bind TransportResponse.data
  ∧ (normalizeError e).originalError = e
  ∧ (∀ m, errorMessagesJoined e = some m → m ≠ "" →
      (normalizeError e).message = m)
  ∧ (optStrFalsy (errorMessagesJoined e) = true →
      ∀ m, dataMessage e = some m → m ≠ "" → (normalizeError e).message = m)
  ∧ (optStrFalsy (errorMessagesJoined e) = true →
      optStrFalsy (dataMessage e) = true → e.message ≠ "" →
      (normalizeError e).message = e.message)
  ∧ (optStrFalsy (errorMessagesJoined e) = true →
      optStrFalsy (dataMessage e) = true → e.message = "" →
      (normalizeError e).message = "An unknown Jira API error occurred") := by
  refine ⟨rfl, rfl, rfl, rfl, rfl, ?_, ?_, ?_, ?_⟩
  · intro m hm hne
    simp [normalizeError, normalizedMessage, jsOrStr, hm, hne]
  · intro hfalsy m hm hne
    cases hj : errorMessagesJoined e with
    | none =>
      simp [normalizeError, normalizedMessage, jsOrStr, hj, hm, hne]
    | some s =>
      have hs : s = "" := by
        simpa [optStrFalsy, hj] using hfalsy
      simp [normalizeError, normalizedMessage, jsOrStr, hj, hs, hm, hne]
  · intro hfalsy1 hfalsy2 hne
    cases hj : errorMessagesJoined e with
    | none =>
      cases hd : dataMessage e with
      | none => simp [normalizeError, normalizedMessage, jsOrStr, hj, hd, hne]
      | some t =>
        have ht : t = "" := by simpa [optStrFalsy, hd] using hfalsy2
        simp [normalizeError, normalizedMessage, jsOrStr, hj, hd, ht, hne]
    | some s =>
      have hs : s = "" := by simpa [optStrFalsy, hj] using hfalsy1
      cases hd : dataMessage e with
      | none => simp [normalizeError, normalizedMessage, jsOrStr, hj, hs, hd, hne]
      | some t =>
        have ht : t = "" := by simpa [optStrFalsy, hd] using hfalsy2
        simp [normalizeError, normalizedMessage, jsOrStr, hj, hs, hd, ht, hne]
  · intro hfalsy1 hfalsy2 hmsg
    cases hj : errorMessagesJoined e with
    | none =>
      cases hd : dataMessage e with
      | none => simp [normalizeError, normalizedMessage, jsOrStr, hj, hd, hmsg]
      | some t =>
        have ht : t = "" := by simpa [optStrFalsy, hd] using hfalsy2
        simp [normalizeError, normalizedMessage, jsOrStr, hj, hd, ht, hmsg]
    | some s =>
      have hs : s = "" := by simpa [optStrFalsy, hj] using hfalsy1
      cases hd : dataMessage e with
      | none => simp [normalizeError, normalizedMessage, jsOrStr, hj, hs, hd, hmsg]
      | some t =>
        have ht : t = "" := by simpa [optStrFalsy, hd] using hfalsy2
        simp [normalizeError, normalizedMessage, jsOrStr, hj, hs, hd, ht, hmsg]

/-- Transport error of a 404 on a non-existent issue key, with one
server-reported error message in the body. -/
def notFoundError : TransportError :=
  { response := some { status := 404
                       statusText := "Not Found"
                       data := some { errorMessages := some ["Issue does not exist"]
                                      message := none } }
    message := "Request failed with status code 404" }

/-- Witness for C4: a 404 response with one server-reported error message
yields that message and `status = some 404`. -/
theorem makeRequest_error_normalization_witness :
    (normalizeError notFoundError).status = some 404
  ∧ (normalizeError notFoundError).message = "Issue does not exist" :=
  ⟨(makeRequest_error_normalization Unit notFoundError).2.1.trans rfl,
   (makeRequest_error_normalization Unit notFoundError).2.2.2.2.2.1
     "Issue does not exist" rfl (by decide)⟩

-- ======== Session state and tokens (JiraOAuth2Client.ts lines 14-97) ========

/-- Mutable header state of the three Axios instances: the
`defaults.headers.common.Authorization` value of each. -/
structure ClientState where
  jiraClientAuth : String
  agileClientAuth : String
  atlassianClientAuth : String
deriving DecidableEq, Repr

/-- The three endpoint families and the client each is bound to. -/
inductive Family where
  | core
  | agile
  | identity
deriving DecidableEq, Repr

/-- Authorization default header read by a request of the given family. -/
def authHeader : Family → ClientState → String
  | Family.core, s => s.jiraClientAuth
  | Family.agile, s => s.agileClientAuth
  | Family.identity, s => s.atlassianClientAuth

/-- Constructor: `createClient` sets `Bearer accessToken` on all three. -/
def initialState (accessToken : String) : ClientState :=
  { jiraClientAuth := "Bearer " ++ accessToken
    agileClientAuth := "Bearer " ++ accessToken
    atlassianClientAuth := "Bearer " ++ accessToken }

/-- Embedding of `setAccessToken`: overwrites the Authorization default of all
three clients with the new bearer header. -/
def setAccessToken (newAccessToken : String) (s : ClientState) : ClientState :=
  let authHeaderValue := "Bearer " ++ newAccessToken
  { s with jiraClientAuth := authHeaderValue
           agileClientAuth := authHeaderValue
           atlassianClientAuth := authHeaderValue }

/-- Request value captured by the transport at issue time: Axios snapshots the
default headers into the request config when the request is issued. -/
structure IssuedRequest where
  authorization : String
deriving DecidableEq, Repr

/-- Issuing a request through a family reads that family's current
Authorization default. -/
def issueRequest (s : ClientState) (f : Family) : IssuedRequest :=
  { authorization := authHeader f s }

/-- The `data` object of a token-exchange response; the two fields inspected
by `refreshAccessToken`. -/
structure RefreshTokensResponse where
  access_token : Option String
  refresh_token : Option String
deriving DecidableEq, Repr

/-- Embedding of `refreshAccessToken` applied to the token-exchange response:
`if (!newAccessToken || !newRefreshToken) throw`, else return `response.data`.
JS `!x` is true for an absent field and for the empty string. -/
def refreshAccessToken (responseData : RefreshTokensResponse) :
    Except String RefreshTokensResponse :=
  if optStrFalsy responseData.access_token || optStrFalsy responseData.refresh_token then
    Except.error "Failed to retrieve access token or new refresh token from response."
  else
    Except.ok responseData

/-- Run of `refreshAccessToken` including its dispatch count: the method
performs exactly one `axios.post` to the token endpoint, with no retry, before
inspecting the response. -/
def refreshAccessTokenRun (responseData : RefreshTokensResponse) :
    Except String RefreshTokensResponse × Nat :=
  (refreshAccessToken responseData, 1)

/-- Operations of the client that could touch the shared session state. -/
inductive ClientOp where
  | setToken (newAccessToken : String)
  | refreshTokens (responseData : RefreshTokensResponse)
  | apiCall (f : Family)
deriving DecidableEq, Repr

/-- Effect of each operation on the three Authorization defaults:
`setAccessToken` overwrites all three; `refreshAccessToken` uses the global
`axios.post` and never reads or writes any client's headers, succeed or fail;
an API call reads the headers but does not write them. -/
def applyOp : ClientOp → ClientState → ClientState
  | ClientOp.setToken t, s => setAccessToken t s
  | ClientOp.refreshTokens _, s => s
  | ClientOp.apiCall _, s => s

-- ======== Theorems: claims C5, C7, C6 ========

/-- Claim C5: after `setAccessToken T2` returns, a request issued through any
of the three endpoint families carries `Bearer T2`; a request already issued
under the previous token `T1` keeps `Bearer T1`, because the transport
captures the header at request-issue time. -/
theorem setAccessToken_applies_to_all_families (s : ClientState)
    (T1 T2 : String) (f : Family) :
    (issueRequest (setAccessToken T2 (setAccessToken T1 s)) f).authorization =
      "Bearer " ++ T2
  ∧ (issueRequest (setAccessToken T1 s) f).authorization = "Bearer " ++ T1 := by
  cases f <;> exact ⟨rfl, rfl⟩

/-- Claim C7: `refreshAccessToken` never modifies the session state - the
Authorization header of every family is unchanged by it, whatever the
response - and the only operation that changes an Authorization header is an
explicit `setAccessToken`. -/
theorem refreshAccessToken_preserves_session (s : ClientState)
    (r : RefreshTokensResponse) (f : Family) :
    authHeader f (applyOp (ClientOp.refreshTokens r) s) = authHeader f s
  ∧ (∀ op : ClientOp, authHeader f (applyOp op s) ≠ authHeader f s →
      ∃ t, op = ClientOp.setToken t) := by
  refine ⟨rfl, ?_⟩
  intro op hop
  cases op with
  | setToken t => exact ⟨t, rfl⟩
  | refreshTokens r2 => exact absurd rfl hop
  | apiCall f2 => exact absurd rfl hop

/-- Witness for C7: a refresh against the initial state leaves the core
family's header unchanged, and an operation that did change the header is a
`setToken`. -/
theorem refreshAccessToken_preserves_session_witness :
    authHeader Family.core
        (applyOp (ClientOp.refreshTokens { access_token := some "a",
                                           refresh_token := some "r" })
          (initialState "t0")) =
      authHeader Family.core (initialState "t0")
  ∧ (∃ t, ClientOp.setToken "t1" = ClientOp.setToken t) :=
  ⟨(refreshAccessToken_preserves_session (initialState "t0")
      { access_token := some "a", refresh_token := some "r" } Family.core).1,
   (refreshAccessToken_preserves_session (initialState "t0")
      { access_token := some "a", refresh_token := some "r" } Family.core).2
     (ClientOp.setToken "t1") (by decide)⟩

/-- Counterexample to C6 as stated: the response
`{ access_token: "", refresh_token: "tok" }` lacks neither token field, yet
`refreshAccessToken` throws, because the code tests JS truthiness and the
empty string is falsy. -/
theorem refreshAccessToken_lacks_iff_counterexample :
    (refreshAccessToken { access_token := some "", refresh_token := some "tok" }).isOk
      = false
  ∧ ({ access_token := some "", refresh_token := some "tok" } :
      RefreshTokensResponse).access_token ≠ none
  ∧ ({ access_token := some "", refresh_token := some "tok" } :
      RefreshTokensResponse).refresh_token ≠ none := by
  decide

/-- Claim C6 (amended): `refreshAccessToken` throws if and only if the
response's `access_token` or `refresh_token` field is JS-falsy (absent or the
empty string); otherwise it returns the response with its token pair, after a
single exchange attempt with no retry. -/
theorem refreshAccessToken_error_iff_falsy (r : RefreshTokensResponse) :
    ((refreshAccessToken r).isOk = false ↔
      (optStrFalsy r.access_token || optStrFalsy r.refresh_token) = true)
  ∧ ((optStrFalsy r.access_token || optStrFalsy r.refresh_token) = false →
      refreshAccessToken r = Except.ok r)
  ∧ (refreshAccessTokenRun r).2 = 1 := by
  refine ⟨?_, ?_, rfl⟩
  · by_cases h : (optStrFalsy r.access_token || optStrFalsy r.refresh_token) = true
    · simp [refreshAccessToken, h, Except.isOk, Except.toBool]
    · simp only [Bool.not_eq_true] at h
      simp [refreshAccessToken, h, Except.isOk, Except.toBool]
  · intro h
    simp [refreshAccessToken, h]

/-- Witness for C6 (amended): a response carrying both tokens is returned
unchanged. -/
theorem refreshAccessToken_error_iff_falsy_witness :
    refreshAccessToken { access_token := some "a", refresh_token := some "r" } =
      Except.ok { access_token := some "a", refresh_token := some "r" } :=
  (refreshAccessToken_error_iff_falsy
    { access_token := some "a", refresh_token := some "r" }).2.1 (by decide)

end JiraClient
